import Mathlib

/-!
Verification development for the shinkrodb anime-metadata pipeline.

Shallow embedding of the identifier-resolution pipeline:
ranking entities (internal/domain, `Anime`), the TMDB confidence-scoring
resolver (internal/tmdb/service.go), the AniDB scrape stage and its
fetch-mode policy (internal/mal/service.go), the SQLite cache repository
(`UpsertEntry` over the single `cache_entries` table), the duplicate
resolver (internal/dedupe/service.go), and the JSON file repository
(internal/repository/file.go).

Modelling conventions:
* Go `string` is Lean `String`; byte-level operations are modelled on the
  character list (all inputs of interest are ASCII).  `strings.ToLower`,
  `strings.TrimSpace`, `strings.Contains` and `strings.EqualFold` are
  re-implemented structurally on `List Char` because the corresponding
  core-library functions do not reduce in the kernel.
* Go `float64` is modelled as `ℚ` (exact arithmetic; the scores involved
  are small sums where floating-point rounding cannot change any of the
  comparisons at issue), `int` as `ℤ`.
* Network calls are oracles passed as explicit arguments (a search
  response, a scrape result list, a title-authority map).
* The SQLite `cache_entries` table is a list of rows; `mal_id` is the
  primary key.
-/

namespace Shinkrodb

/-! ## String primitives (models of Go `strings` functions, ASCII fragment) -/

/-- Model of `strings.ToLower` on one character (ASCII fragment). -/
def lowerChar (c : Char) : Char :=
  if 65 ≤ c.toNat ∧ c.toNat ≤ 90 then Char.ofNat (c.toNat + 32) else c

/-- Whitespace test used by the model of `strings.TrimSpace`. -/
def isSpaceChar (c : Char) : Bool :=
  c == ' ' || c == '\t' || c == '\n' || c == '\r'

/-- Model of `strings.TrimSpace` on the character list. -/
def trimL (l : List Char) : List Char :=
  ((l.dropWhile isSpaceChar).reverse.dropWhile isSpaceChar).reverse

/-- `strings.ToLower(strings.TrimSpace(s))`, the normalisation applied to every
title before comparison in `calculateScore`. -/
def normTitle (s : String) : String :=
  String.mk ((trimL s.data).map lowerChar)

/-- Model of `strings.EqualFold` (ASCII fragment): case-insensitive equality. -/
def equalFold (a b : String) : Bool :=
  a.data.map lowerChar == b.data.map lowerChar

/-- Does `hay` start with `sub`? (helper for the `strings.Contains` model). -/
def startsWithL : List Char → List Char → Bool
  | _, [] => true
  | [], _ :: _ => false
  | a :: as, b :: bs => a == b && startsWithL as bs

/-- Substring search on character lists (helper for `goContains`). -/
def containsL : List Char → List Char → Bool
  | [], sub => sub.isEmpty
  | a :: t, sub => startsWithL (a :: t) sub || containsL t sub

/-- Model of Go `strings.Contains s sub` (`sub` occurs inside `s`). -/
def goContains (s sub : String) : Bool :=
  containsL s.data sub.data

/-- Numeric value of a digit character. -/
def charVal (c : Char) : Nat := c.toNat - 48

/-- Model of `strconv.Atoi`: optional sign followed by at least one digit. -/
def goAtoi (s : String) : Option Int :=
  match s.data with
  | [] => none
  | '+' :: rest =>
      if rest ≠ [] ∧ rest.all Char.isDigit then
        some (Int.ofNat (rest.foldl (fun a c => a * 10 + charVal c) 0))
      else none
  | '-' :: rest =>
      if rest ≠ [] ∧ rest.all Char.isDigit then
        some (-(Int.ofNat (rest.foldl (fun a c => a * 10 + charVal c) 0)))
      else none
  | l =>
      if l.all Char.isDigit then
        some (Int.ofNat (l.foldl (fun a c => a * 10 + charVal c) 0))
      else none

/-! ## Date primitives (model of `time.Parse("2006-01-02", ·)` and day difference) -/

/-- Gregorian leap-year rule (as in Go `time`). -/
def isLeapYear (y : Nat) : Bool :=
  (y % 4 == 0 && y % 100 != 0) || y % 400 == 0

/-- Number of days in a month (as validated by Go `time.Parse`). -/
def daysInMonth (y m : Nat) : Nat :=
  if m = 2 then (if isLeapYear y then 29 else 28)
  else if m = 4 ∨ m = 6 ∨ m = 9 ∨ m = 11 then 30
  else 31

/-- Model of `time.Parse("2006-01-02", s)`: exactly `YYYY-MM-DD` with a valid
month and day-of-month; `none` models a parse error. -/
def parseYMD (s : String) : Option (Nat × Nat × Nat) :=
  match s.data with
  | [y1, y2, y3, y4, h1, m1, m2, h2, d1, d2] =>
      if (y1.isDigit && y2.isDigit && y3.isDigit && y4.isDigit &&
          (h1 == '-') && m1.isDigit && m2.isDigit && (h2 == '-') &&
          d1.isDigit && d2.isDigit) then
        let y := ((charVal y1 * 10 + charVal y2) * 10 + charVal y3) * 10 + charVal y4
        let m := charVal m1 * 10 + charVal m2
        let d := charVal d1 * 10 + charVal d2
        if 1 ≤ m ∧ m ≤ 12 ∧ 1 ≤ d ∧ d ≤ daysInMonth y m then some (y, m, d) else none
      else none
  | _ => none

/-- Civil day number of a calendar date (days since 1970-01-01, standard
era-based algorithm); used to model
`int(math.Abs(malDate.Sub(tmdbDate).Hours() / 24))`, which for two parsed
midnight-UTC dates is exactly the absolute day difference. -/
def daysFromCivil (y m d : Nat) : Int :=
  let yi : Int := if m ≤ 2 then (y : Int) - 1 else (y : Int)
  let era : Int := (if 0 ≤ yi then yi else yi - 399) / 400
  let yoe : Int := yi - era * 400
  let mp : Int := ((m : Int) + 9) % 12
  let doy : Int := (153 * mp + 2) / 5 + (d : Int) - 1
  let doe : Int := yoe * 365 + yoe / 4 - yoe / 100 + doy
  era * 146097 + doe - 719468

/-- Absolute day difference between two parsed dates. -/
def dayDiff (a b : Nat × Nat × Nat) : Nat :=
  (daysFromCivil a.1 a.2.1 a.2.2 - daysFromCivil b.1 b.2.1 b.2.2).natAbs

/-- Model of `math.Min` on the rational embedding of `float64`. -/
def goMin (a b : ℚ) : ℚ := if a ≤ b then a else b

/-! ## Domain data types -/

/-- `domain.Anime` (src/unnamed/part_006): one catalog entity.  The
`json:"-"` fields (`JapaneseTitle`, `Synonyms`) are kept in memory only. -/
structure Anime where
  mainTitle : String
  englishTitle : String
  japaneseTitle : String
  synonyms : List String
  malID : Int
  anidbID : Int
  tvdbID : Int
  tmdbID : Int
  type : String
  releaseDate : String
deriving Repr, DecidableEq

/-- One element of `TMDBAPIResponse.Results` (internal/tmdb/service.go). -/
structure TMDBResult where
  adult : Bool
  backdropPath : String
  genreIds : List Int
  id : Int
  originalLanguage : String
  originalTitle : String
  overview : String
  popularity : ℚ
  posterPath : String
  releaseDate : String
  title : String
  video : Bool
  voteAverage : ℚ
  voteCount : Int
deriving Repr, DecidableEq

/-- `TMDBAPIResponse` (internal/tmdb/service.go). -/
structure TMDBAPIResponse where
  page : Int
  results : List TMDBResult
  totalPages : Int
  totalResults : Int
deriving Repr, DecidableEq

/-- `scoredResult` (internal/tmdb/service.go): a TMDB id with a match score. -/
structure ScoredResult where
  id : Int
  score : ℚ
deriving Repr, DecidableEq

/-- `domain.FetchMode` (fetch-mode policy of both enrichment stages). -/
inductive FetchMode where
  | default
  | missing
  | all
  | skip
deriving Repr, DecidableEq

/-- `domain.CacheEntry` as constructed by the callers of `UpsertEntry`
(internal/mal/service.go, internal/tmdb/service.go). -/
structure CacheEntry where
  malID : Int
  anidbID : Int
  tmdbID : Int
  url : String
  cachedAt : String
  lastUsed : String
  hadAniDBID : Bool
  releaseDate : String
  type : String
deriving Repr, DecidableEq

/-- One row of the SQLite `cache_entries` table (internal/cache/schema.go;
the `tmdb_id` column is added by migration 1 with `DEFAULT 0`). -/
structure CacheRow where
  malID : Int
  anidbID : Int
  url : String
  cachedAt : String
  lastUsed : String
  hadAniDBID : Bool
  releaseDate : String
  type : String
  tmdbID : Int
deriving Repr, DecidableEq

/-! ## Confidence scoring (internal/tmdb/service.go, `calculateScore`) -/

/-- Title-matching block of `calculateScore` (lines 521-546): `none` models
the early `return 0` when no title variant overlaps at all. -/
def titlePoints (anime : Anime) (result : TMDBResult) : Option ℚ :=
  let malTitle := normTitle anime.mainTitle
  let malEnglishTitle := normTitle anime.englishTitle
  let malJapaneseTitle := normTitle anime.japaneseTitle
  let tmdbTitle := normTitle result.title
  let tmdbOriginalTitle := normTitle result.originalTitle
  if malTitle == tmdbTitle || malEnglishTitle == tmdbTitle then some 40
  else if malTitle == tmdbOriginalTitle || malEnglishTitle == tmdbOriginalTitle then some 35
  else if malJapaneseTitle != "" &&
      (malJapaneseTitle == tmdbOriginalTitle || malJapaneseTitle == tmdbTitle) then some 35
  else if goContains tmdbTitle malTitle || goContains malTitle tmdbTitle then some 25
  else if goContains tmdbOriginalTitle malTitle || goContains malTitle tmdbOriginalTitle then some 20
  else if malEnglishTitle != "" &&
      (goContains tmdbTitle malEnglishTitle || goContains malEnglishTitle tmdbTitle) then some 25
  else if malJapaneseTitle != "" &&
      (goContains tmdbOriginalTitle malJapaneseTitle ||
       goContains malJapaneseTitle tmdbOriginalTitle) then some 20
  else none

/-- Date-matching block of `calculateScore` (lines 548-570). -/
def datePoints (animeDate resultDate : String) : ℚ :=
  if resultDate = animeDate then 30
  else
    match parseYMD animeDate, parseYMD resultDate with
    | some a, some b =>
        let daysDiff := dayDiff a b
        if daysDiff ≤ 7 then 25
        else if daysDiff ≤ 30 then 20
        else if daysDiff ≤ 90 then 15
        else 10
    | _, _ => 10

/-- Popularity block of `calculateScore` (line 574): `math.Min(pop/10, 10)`. -/
def popularityPoints (p : ℚ) : ℚ := goMin (p / 10) 10

/-- Vote-count block of `calculateScore` (line 578): `math.Min(votes/500, 10)`. -/
def votePoints (v : Int) : ℚ := goMin ((v : ℚ) / 500) 10

/-- Genre-bonus block of `calculateScore` (lines 582-587). -/
def genrePoints (genreIds : List Int) : ℚ :=
  if genreIds.contains 16 then 5 else 0

/-- `calculateScore` (internal/tmdb/service.go lines 502-590). -/
def calculateScore (anime : Anime) (result : TMDBResult) : ℚ :=
  match titlePoints anime result with
  | none => 0
  | some t =>
      t + datePoints anime.releaseDate result.releaseDate
        + popularityPoints result.popularity
        + votePoints result.voteCount
        + genrePoints result.genreIds

/-- `getYear` (internal/tmdb/service.go lines 712-715): the regexp
`^\d{4,4}` returns the leading four digits, or the empty string. -/
def getYear (d : String) : String :=
  match d.data with
  | c1 :: c2 :: c3 :: c4 :: _ =>
      if c1.isDigit && c2.isDigit && c3.isDigit && c4.isDigit then
        String.mk [c1, c2, c3, c4]
      else ""
  | _ => ""

/-- Go comparison `bestMatch == nil || score > bestMatch.Score` used inside the
`findBestMatch` loop. -/
def betterThanBest (best : Option ScoredResult) (score : ℚ) : Bool :=
  match best with
  | none => true
  | some b => decide (b.score < score)

/-- The `for i := range results` loop of `findBestMatch` (lines 467-497),
with its inline video / documentary / year skips. -/
def findBestLoop (anime : Anime) (malYear : String) :
    List TMDBResult → Option ScoredResult → Option ScoredResult
  | [], best => best
  | r :: rest, best =>
      if r.video then findBestLoop anime malYear rest best
      else if r.genreIds.contains 99 then findBestLoop anime malYear rest best
      else if getYear r.releaseDate ≠ malYear then findBestLoop anime malYear rest best
      else
        let score := calculateScore anime r
        let best' := if decide (0 < score) && betterThanBest best score then
            some (ScoredResult.mk r.id score)
          else best
        findBestLoop anime malYear rest best'

/-- `findBestMatch` (internal/tmdb/service.go lines 434-500). -/
def findBestMatch (anime : Anime) (results : List TMDBResult) : Option ScoredResult :=
  match results with
  | [] => none
  | [r] =>
      let score := calculateScore anime r
      if 0 < score then some (ScoredResult.mk r.id score) else none
  | _ :: _ :: _ => findBestLoop anime (getYear anime.releaseDate) results none

/-! ## Per-entity TMDB resolution (internal/tmdb/service.go, `GetTmdbIds`) -/

/-- Predicate of the legacy matching loop (lines 196-203): a result is
accepted when its release date equals the entity release date exactly, or the
response reports exactly one total result. -/
def shortCircuitP (totalResults : Int) (releaseDate : String) (r : TMDBResult) : Bool :=
  r.releaseDate == releaseDate || totalResults == 1

/-- The legacy matching loop itself (`for _, result := range tmdb.Results`
with `break` on the first accepted result, lines 194-203). -/
def oldMatchLoop (totalResults : Int) (releaseDate : String) : List TMDBResult → Option Int
  | [] => none
  | r :: rest =>
      if shortCircuitP totalResults releaseDate r then some r.id
      else oldMatchLoop totalResults releaseDate rest

/-- The legacy matching rule applied to a whole search response. -/
def oldMatchLogic (resp : TMDBAPIResponse) (releaseDate : String) : Option Int :=
  oldMatchLoop resp.totalResults releaseDate resp.results

/-- The confidence-score branch of `GetTmdbIds` (lines 214-261).  The result
of `tryFallbackSearches` — a network interaction — is passed in as the oracle
`fallback`. -/
def scoringPath (anime : Anime) (resp : TMDBAPIResponse)
    (fallback : Option ScoredResult) : Option Int :=
  let best0 := findBestMatch anime resp.results
  let needFallback : Bool :=
    match best0 with
    | none => true
    | some b => decide (b.score < 50)
  let best1 :=
    if needFallback then
      match fallback, best0 with
      | some fb, none => some fb
      | some fb, some b => if b.score < fb.score then some fb else some b
      | none, b => b
    else best0
  match best1 with
  | some b => if 50 ≤ b.score then some b.id else none
  | none => none

/-- Resolution of one searched entity (lines 194-261): the legacy loop runs
first and short-circuits the scoring path entirely. -/
def resolveFromResponse (anime : Anime) (resp : TMDBAPIResponse)
    (fallback : Option ScoredResult) : Option Int :=
  match oldMatchLogic resp anime.releaseDate with
  | some id => some id
  | none => scoringPath anime resp fallback

/-! ## Cache repository (src/unnamed/part_014, table `cache_entries`) -/

/-- Point lookup of the row keyed by `mal_id` (primary key). -/
def lookupRow (store : List CacheRow) (malID : Int) : Option CacheRow :=
  store.find? (fun row => row.malID == malID)

/-- The column assignments of the `UPDATE cache_entries SET ...` statement in
`UpsertEntry` (lines 64-72): exactly `anidb_id`, `had_anidb_id`, `last_used`,
`release_date` and `type` are set; `tmdb_id`, `url` and `cached_at` are not. -/
def updateRow (row : CacheRow) (entry : CacheEntry) : CacheRow :=
  { row with
      anidbID := entry.anidbID
      hadAniDBID := entry.hadAniDBID
      lastUsed := entry.lastUsed
      releaseDate := entry.releaseDate
      type := entry.type }

/-- The column list of the insert statement in `UpsertEntry` (lines 92-95):
`mal_id, anidb_id, url, cached_at, last_used, had_anidb_id, release_date,
type` — the `tmdb_id` column is absent and takes its schema default `0`. -/
def insertRow (entry : CacheEntry) : CacheRow :=
  { malID := entry.malID
    anidbID := entry.anidbID
    url := entry.url
    cachedAt := entry.cachedAt
    lastUsed := entry.lastUsed
    hadAniDBID := entry.hadAniDBID
    releaseDate := entry.releaseDate
    type := entry.type
    tmdbID := 0 }

/-- `UpsertEntry` (src/unnamed/part_014 lines 62-110): try the update first;
if no row was affected, insert a fresh row. -/
def upsertEntry (store : List CacheRow) (entry : CacheEntry) : List CacheRow :=
  if store.any (fun row => row.malID == entry.malID) then
    store.map (fun row => if row.malID == entry.malID then updateRow row entry else row)
  else
    insertRow entry :: store

/-- `GetAniDBIDs` (src/unnamed/part_014 lines 27-60): the map of
`mal_id → anidb_id` over rows with `anidb_id > 0`, as an association list. -/
def getAniDBIDs (store : List CacheRow) : List (Int × Int) :=
  (store.filter (fun row => decide (0 < row.anidbID))).map (fun row => (row.malID, row.anidbID))

/-! ## Fetch-mode policy -/

/-- Association-list lookup modelling a Go `map[int]int` access. -/
def lookupPair (m : List (Int × Int)) (k : Int) : Option Int :=
  (m.find? (fun p => p.1 == k)).map (fun p => p.2)

/-- The year test of the `default` case of `filterAnimeToScrape`
(internal/mal/service.go lines 386-397): the release date is non-empty, at
least four characters long, its first four characters parse as an integer,
and that release year is `>= currentYear - 1`. -/
def scrapeYearOK (currentYear : Int) (releaseDate : String) : Bool :=
  if releaseDate != "" then
    if 4 ≤ releaseDate.data.length then
      match goAtoi (String.mk (releaseDate.data.take 4)) with
      | some releaseYear => decide (currentYear - 1 ≤ releaseYear)
      | none => false
    else false
  else false

/-- `filterAnimeToScrape` (internal/mal/service.go lines 344-406).
`cachedMalIDs` is the key set of the cached-AniDB map; `currentYear` stands
for `time.Now().Year()`. -/
def filterAnimeToScrape (mode : FetchMode) (currentYear : Int)
    (cachedMalIDs : List Int) (animeList : List Anime) : List Anime :=
  if mode = FetchMode.skip then []
  else
    animeList.filter (fun anime =>
      match mode with
      | FetchMode.all => true
      | FetchMode.missing =>
          !(cachedMalIDs.contains anime.malID || decide (0 < anime.anidbID))
      | FetchMode.default =>
          if cachedMalIDs.contains anime.malID || decide (0 < anime.anidbID) then false
          else if anime.type != "tv" then false
          else scrapeYearOK currentYear anime.releaseDate
      | FetchMode.skip => false)

/-- `filterMoviesToFetch` (internal/tmdb/service.go lines 324-368).
`cachedTmdbIDs` is the map returned by `GetTMDBIDs`. -/
def filterMoviesToFetch (mode : FetchMode) (cachedTmdbIDs : List (Int × Int))
    (animeList : List Anime) : List Anime :=
  if mode = FetchMode.skip then []
  else
    animeList.filter (fun anime =>
      if anime.type != "movie" then false
      else
        match mode with
        | FetchMode.all => true
        | FetchMode.missing =>
            !((lookupPair cachedTmdbIDs anime.malID).isSome && decide (0 < anime.tmdbID))
        | FetchMode.default =>
            !((lookupPair cachedTmdbIDs anime.malID).isSome && decide (0 < anime.tmdbID))
        | FetchMode.skip => false)

/-! ## Scrape stage (internal/mal/service.go, `ScrapeAniDBIDs`) -/

/-- The cache back-fill loop of `ScrapeAniDBIDs` (lines 176-183): set the
AniDB id of the first list entry with the given MAL id (`break` after the
first hit). -/
def setFirstAnidb : List Anime → Int → Int → List Anime
  | [], _, _ => []
  | x :: xs, malID, anidbID =>
      if x.malID == malID then { x with anidbID := anidbID } :: xs
      else x :: setFirstAnidb xs malID anidbID

/-- The back-fill over the whole cached map (lines 170-185); entries with
`anidbID > 0` also populate `cachedMalIDs`. -/
def backfillAniDB (animeList : List Anime) (anidbMap : List (Int × Int)) : List Anime :=
  anidbMap.foldl
    (fun acc p => if 0 < p.2 then setFirstAnidb acc p.1 p.2 else acc)
    animeList

/-- Key set of the cached-AniDB map restricted to positive ids (lines
172-175). -/
def cachedKeys (anidbMap : List (Int × Int)) : List Int :=
  (anidbMap.filter (fun p => decide (0 < p.2))).map (fun p => p.1)

/-- Index of the last list entry with the given MAL id; models the
`malIDToIndex` map (lines 202-205), where a later index overwrites an
earlier one. -/
def lastIdxOf : List Anime → Int → Option Nat
  | [], _ => none
  | x :: xs, malID =>
      match lastIdxOf xs malID with
      | some j => some (j + 1)
      | none => if x.malID == malID then some 0 else none

/-- URL template used for every cache entry. -/
def malUrl (malID : Int) : String := "myanimelist-anime-" ++ toString malID

/-- The `OnHTML` callback effect for one successfully scraped page (lines
230-259): update the list entry found through `malIDToIndex` and immediately
upsert a cache entry carrying the freshly scraped AniDB id. -/
def applyScrapeResult (now : String) (st : List Anime × List CacheRow)
    (res : Int × Int) : List Anime × List CacheRow :=
  match lastIdxOf st.1 res.1 with
  | none => st
  | some i =>
      match st.1[i]? with
      | none => st
      | some x =>
          let x' := { x with anidbID := res.2 }
          let a' := st.1.set i x'
          let entry : CacheEntry :=
            { malID := res.1
              anidbID := res.2
              tmdbID := x'.tmdbID
              url := malUrl res.1
              cachedAt := now
              lastUsed := now
              hadAniDBID := true
              releaseDate := x'.releaseDate
              type := x'.type }
          (a', upsertEntry st.2 entry)

/-- The cache entry written by `updateCacheDatabase` for one list entry
(internal/mal/service.go lines 306-332). -/
def scrapeSweepEntry (now : String) (anime : Anime) : CacheEntry :=
  { malID := anime.malID
    anidbID := anime.anidbID
    tmdbID := anime.tmdbID
    url := malUrl anime.malID
    cachedAt := now
    lastUsed := now
    hadAniDBID := 0 < anime.anidbID
    releaseDate := anime.releaseDate
    type := anime.type }

/-- `updateCacheDatabase` (internal/mal/service.go lines 297-342): upsert one
entry per list element. -/
def updateCacheDatabase (now : String) (store : List CacheRow)
    (animeList : List Anime) : List CacheRow :=
  animeList.foldl (fun st anime => upsertEntry st (scrapeSweepEntry now anime)) store

/-- `ScrapeAniDBIDs` (internal/mal/service.go lines 159-295) restricted to its
observable list/cache effect.  The network is the oracle `scraped`: the
`(malID, anidbID)` pairs extracted by the `OnHTML` callback, which can only
fire for visited pages, i.e. for entities of the `toScrape` subset.  When
`toScrape` is empty the stage returns before any cache write (lines
190-197). -/
def scrapeStage (mode : FetchMode) (currentYear : Int) (now : String)
    (scraped : List (Int × Int)) (animeList : List Anime)
    (store : List CacheRow) : List Anime × List CacheRow :=
  let anidbMap := getAniDBIDs store
  let a1 := backfillAniDB animeList anidbMap
  let toScrape := filterAnimeToScrape mode currentYear (cachedKeys anidbMap) a1
  if toScrape.isEmpty then (a1, store)
  else
    let st1 := scraped.foldl (applyScrapeResult now) (a1, store)
    (st1.1, updateCacheDatabase now st1.2 st1.1)

/-! ## Per-entity cache effect of the TMDB stage (internal/tmdb/service.go) -/

/-- The cache entry written by `GetTmdbIds` when a TMDB id has been resolved
for a movie (lines 272-283): the `anidb_id` field is copied from the current
entity list, which at this stage has not been back-filled from the cache. -/
def tmdbMatchEntry (now : String) (x : Anime) (anime : Anime) (tmdbID : Int) : CacheEntry :=
  { malID := anime.malID
    anidbID := x.anidbID
    tmdbID := tmdbID
    url := malUrl anime.malID
    cachedAt := now
    lastUsed := now
    hadAniDBID := 0 < x.anidbID
    releaseDate := anime.releaseDate
    type := anime.type }

/-- The search-API branch of `GetTmdbIds` for one candidate entity (lines
166-303) restricted to its list/cache effect, with the search response and
the fallback-search outcome as oracles.  On a match with a positive id the
entity list entry is updated and a cache entry is upserted immediately. -/
def tmdbProcessEntity (now : String) (st : List Anime × List CacheRow)
    (anime : Anime) (resp : TMDBAPIResponse)
    (fallback : Option ScoredResult) : List Anime × List CacheRow :=
  match resolveFromResponse anime resp fallback with
  | none => st
  | some tmdbID =>
      if 0 < tmdbID then
        match lastIdxOf st.1 anime.malID with
        | none => st
        | some i =>
            match st.1[i]? with
            | none => st
            | some x =>
                (st.1.set i { x with tmdbID := tmdbID },
                 upsertEntry st.2 (tmdbMatchEntry now x anime tmdbID))
      else st

/-! ## Duplicate resolution (internal/dedupe/service.go) -/

/-- The inner counting loop of `CheckDupes` (lines 45-50) together with the
outer guard (lines 41-43): an entity belongs to a duplicate group when its
AniDB id is non-zero and more than one entity shares its (AniDB id, type)
key with type `"tv"`. -/
def isDupeMember (animeList : List Anime) (v : Anime) : Bool :=
  v.anidbID != 0 &&
    decide (1 < (animeList.filter
      (fun vv => v.anidbID == vv.anidbID && v.type == vv.type && v.type == "tv")).length)

/-- The `indexes` slice accumulated by `CheckDupes` (lines 40-60): positions
of all duplicate-group members, in list order. -/
def dupeIndexes (animeList : List Anime) : List Nat :=
  (List.range animeList.length).filter (fun i =>
    match animeList[i]? with
    | some v => isDupeMember animeList v
    | none => false)

/-- `removeIndex` (internal/dedupe/service.go lines 104-109): delete one
position, returning the list unchanged when the index is out of range. -/
def removeIndex (animeList : List Anime) (index : Nat) : List Anime :=
  animeList.eraseIdx index

/-- `checkTitle` (internal/dedupe/service.go lines 85-102): walk the recorded
indexes; at the first entry whose authoritative main title is known and
differs case-insensitively from its primary title, remove that single entry
and return.  `titleMap` is the memoized `aidTitleMap` after
`fillAidTitleMap`; the empty string models a missing entry or a failed
fetch. -/
def checkTitle (titleMap : Int → String) (animeList : List Anime) :
    List Nat → List Anime
  | [] => animeList
  | index :: rest =>
      if index < animeList.length then
        match animeList[index]? with
        | some v =>
            let mainTitle := titleMap v.anidbID
            if mainTitle != "" && !equalFold v.mainTitle mainTitle then
              removeIndex animeList index
            else checkTitle titleMap animeList rest
        | none => checkTitle titleMap animeList rest
      else checkTitle titleMap animeList rest

/-- `CheckDupes` (internal/dedupe/service.go lines 35-83): returns the length
of the `dupeanidb` slice (one element per duplicate-group member; the stable
sort on it is omitted as it cannot change the length) and the list filtered
by `checkTitle`. -/
def checkDupes (titleMap : Int → String) (animeList : List Anime) : Int × List Anime :=
  let indexes := dupeIndexes animeList
  let dupeCount := (animeList.filter (isDupeMember animeList)).length
  if indexes.isEmpty then (0, animeList)
  else ((dupeCount : Int), checkTitle titleMap animeList indexes)

/-! ## Terminal JSON serialization (internal/repository/file.go and the
struct tags of `domain.Anime`) -/

/-- The JSON object produced for one `Anime` by `json.MarshalIndent`
(struct tags in src/unnamed/part_006): `omitempty` fields become `none` at
their zero value, and the two `json:"-"` fields do not appear at all. -/
structure AnimeJSON where
  title : String
  enTitle : Option String
  malid : Int
  anidbid : Option Int
  tvdbid : Option Int
  tmdbid : Option Int
  type : String
  releaseDate : String
deriving Repr, DecidableEq

/-- Marshalling of one entity (`FileRepository.Store`, json struct tags). -/
def marshalAnime (a : Anime) : AnimeJSON :=
  { title := a.mainTitle
    enTitle := if a.englishTitle = "" then none else some a.englishTitle
    malid := a.malID
    anidbid := if a.anidbID = 0 then none else some a.anidbID
    tvdbid := if a.tvdbID = 0 then none else some a.tvdbID
    tmdbid := if a.tmdbID = 0 then none else some a.tmdbID
    type := a.type
    releaseDate := a.releaseDate }

/-- Unmarshalling of one entity (`FileRepository.Get`, `json.Unmarshal` into
a zero-valued struct: absent fields keep the Go zero value). -/
def unmarshalAnime (j : AnimeJSON) : Anime :=
  { mainTitle := j.title
    englishTitle := j.enTitle.getD ""
    japaneseTitle := ""
    synonyms := []
    malID := j.malid
    anidbID := j.anidbid.getD 0
    tvdbID := j.tvdbid.getD 0
    tmdbID := j.tmdbid.getD 0
    type := j.type
    releaseDate := j.releaseDate }

/-- `FileRepository.Store` on a whole list (order-preserving). -/
def storeAnimeList (l : List Anime) : List AnimeJSON := l.map marshalAnime

/-- `FileRepository.Get` on a stored list (order-preserving). -/
def getAnimeList (l : List AnimeJSON) : List Anime := l.map unmarshalAnime

/-- The fields that survive serialization: the in-memory-only fields come
back empty. -/
def scrubAnime (a : Anime) : Anime :=
  { a with japaneseTitle := "", synonyms := [] }

/-! ## Specification-side definitions

The following definitions follow the wording of the specification (spec.md
section 4.6 and 4.7), to be compared with the definitions translated from
the source above. -/

/-- Spec, title component (0-40): exact case-insensitive match against
primary or localized (English) title scores 40; against the
original-language title, or the localized-language (Japanese) title against
either candidate title, scores 35; substring containment in either
direction scores 25 against the primary/localized titles and 20 against the
original-language/Japanese titles; no overlap at all is a hard gate
(`none`). -/
def titleComponentSpec (anime : Anime) (result : TMDBResult) : Option ℚ :=
  let primary := normTitle anime.mainTitle
  let localized := normTitle anime.englishTitle
  let language := normTitle anime.japaneseTitle
  let candidate := normTitle result.title
  let original := normTitle result.originalTitle
  if primary == candidate || localized == candidate then some 40
  else if primary == original || localized == original then some 35
  else if language != "" && (language == original || language == candidate) then some 35
  else if goContains candidate primary || goContains primary candidate then some 25
  else if goContains original primary || goContains primary original then some 20
  else if localized != "" && (goContains candidate localized || goContains localized candidate) then some 25
  else if language != "" && (goContains original language || goContains language original) then some 20
  else none

/-- Spec, date component (0-30): exact date-string match scores 30; else,
when both dates parse, the score is graduated by absolute day difference
(within 7 days 25, within 30 days 20, within 90 days 15, else 10); when a
date does not parse the component is 10. -/
def dateComponentSpec (entityDate candidateDate : String) : ℚ :=
  if candidateDate = entityDate then 30
  else
    match parseYMD entityDate, parseYMD candidateDate with
    | some a, some b =>
        if dayDiff a b ≤ 7 then 25
        else if dayDiff a b ≤ 30 then 20
        else if dayDiff a b ≤ 90 then 15
        else 10
    | _, _ => 10

/-- Spec, full scoring function: a hard title gate, then the sum
title + date + popularity/10 (capped at 10) + votes/500 (capped at 10)
+ 5 when the genre set holds the animation code 16. -/
def calculateScoreSpec (anime : Anime) (result : TMDBResult) : ℚ :=
  match titleComponentSpec anime result with
  | none => 0
  | some t =>
      t + dateComponentSpec anime.releaseDate result.releaseDate
        + goMin (result.popularity / 10) 10
        + goMin ((result.voteCount : ℚ) / 500) 10
        + (if result.genreIds.contains 16 then 5 else 0)

/-- Spec, candidate-set pre-filter: discard candidates flagged as video,
candidates whose genre set holds the documentary code 99, and candidates
whose release year differs from the entity release year. -/
def preFilterSpec (anime : Anime) (r : TMDBResult) : Bool :=
  !r.video && !(r.genreIds.contains 99) && (getYear r.releaseDate == getYear anime.releaseDate)

/-- Spec, best-candidate selection without any pre-filter: keep the
highest-scoring candidate with a positive score, the earlier one winning
ties. -/
def selectBest (anime : Anime) : List TMDBResult → Option ScoredResult → Option ScoredResult
  | [], best => best
  | r :: rest, best =>
      let score := calculateScore anime r
      let best' := if decide (0 < score) && betterThanBest best score then
          some (ScoredResult.mk r.id score)
        else best
      selectBest anime rest best'

/-- Spec, duplicate-group membership: a non-zero secondary identifier of a
`"tv"` entity shared by at least two `"tv"` entities. -/
def dupeMemberSpec (animeList : List Anime) (v : Anime) : Bool :=
  v.anidbID != 0 && v.type == "tv" &&
    decide (2 ≤ (animeList.filter
      (fun vv => vv.anidbID == v.anidbID && vv.type == "tv")).length)

/-- Spec, number of duplicate groups: distinct non-zero secondary
identifiers shared by at least two `"tv"` entities. -/
def numDupeGroups (animeList : List Anime) : Nat :=
  ((((animeList.filter (fun v => decide (0 < v.anidbID) && v.type == "tv")).map
      (fun v => v.anidbID)).dedup).filter (fun aid =>
    2 ≤ (animeList.filter (fun v => v.anidbID == aid && v.type == "tv")).length)).length

/-! ## Concrete fixtures used by the evaluation theorems -/

/-- A `"tv"` entity with the given MAL id, AniDB id and title. -/
def mkTv (mal anidb : Int) (title : String) : Anime :=
  { mainTitle := title, englishTitle := "", japaneseTitle := "", synonyms := [],
    malID := mal, anidbID := anidb, tvdbID := 0, tmdbID := 0, type := "tv",
    releaseDate := "" }

/-- The movie entity of the scoring fixture in the specification:
title `"Foo Movie"`, release date `"2020-05-01"`. -/
def entityFoo : Anime :=
  { mainTitle := "Foo Movie", englishTitle := "", japaneseTitle := "", synonyms := [],
    malID := 1, anidbID := 0, tvdbID := 0, tmdbID := 0, type := "movie",
    releaseDate := "2020-05-01" }

/-- First candidate of the scoring fixture: matching title and date,
popularity 50, 1000 votes, animation genre. -/
def candidateFoo : TMDBResult :=
  { adult := false, backdropPath := "", genreIds := [16], id := 101,
    originalLanguage := "", originalTitle := "Foo Movie", overview := "",
    popularity := 50, posterPath := "", releaseDate := "2020-05-01",
    title := "Foo Movie", video := false, voteAverage := 0, voteCount := 1000 }

/-- Second candidate of the scoring fixture: titled `"Bar"`, same date,
popularity 50, 1000 votes, no animation genre. -/
def candidateBar : TMDBResult :=
  { adult := false, backdropPath := "", genreIds := [], id := 202,
    originalLanguage := "", originalTitle := "Bar", overview := "",
    popularity := 50, posterPath := "", releaseDate := "2020-05-01",
    title := "Bar", video := false, voteAverage := 0, voteCount := 1000 }

/-- The two-group duplicate fixture: groups 100 and 200, each with one
matching and one mismatching member. -/
def dupesTwoGroups : List Anime :=
  [mkTv 1 100 "Show A", mkTv 2 100 "Show B", mkTv 3 200 "Show C", mkTv 4 200 "Show D"]

/-- Title authority of the two-group fixture. -/
def titleMapTwoGroups : Int → String := fun aid =>
  if aid == 100 then "Show A" else if aid == 200 then "Show C" else ""

/-- A candidate with a non-matching date, used in the short-circuit fixture. -/
def candidateOther : TMDBResult :=
  { candidateBar with releaseDate := "2020-06-01", id := 303 }

/-- A search response where the second result matches the entity date
exactly and more than one total result is reported. -/
def respShort : TMDBAPIResponse :=
  { page := 1, results := [candidateOther, candidateFoo], totalPages := 1, totalResults := 2 }

/-- A single-result response whose result matches the entity date. -/
def respSingle : TMDBAPIResponse :=
  { page := 1, results := [candidateFoo], totalPages := 1, totalResults := 1 }

/-- A candidate with a hugely negative popularity value. -/
def candidateNegPop : TMDBResult :=
  { candidateFoo with popularity := -10000, genreIds := [], voteCount := 0 }

/-- A cache row for MAL id 1 with a confirmed AniDB id 7 and no TMDB id. -/
def rowAnidb7 : CacheRow :=
  { malID := 1, anidbID := 7, url := "u", cachedAt := "t0", lastUsed := "t0",
    hadAniDBID := true, releaseDate := "2020-05-01", type := "movie", tmdbID := 0 }

/-- A cache entry supplying a freshly resolved TMDB id 5. -/
def entryTmdb5 : CacheEntry :=
  { malID := 1, anidbID := 7, tmdbID := 5, url := "u", cachedAt := "t1",
    lastUsed := "t1", hadAniDBID := true, releaseDate := "2020-05-01", type := "movie" }

/-- A cache entry with a zero AniDB id, as built by the scrape-stage sweep
from an entity list that does not carry the id. -/
def entryAnidb0 : CacheEntry :=
  { malID := 1, anidbID := 0, tmdbID := 0, url := "u", cachedAt := "t1",
    lastUsed := "t1", hadAniDBID := false, releaseDate := "2020-05-01", type := "movie" }

/-- Scrape-stage fixture: entity 1 is cached (AniDB id 7), entity 2 is a
fresh tv entry from the current year. -/
def scrapeAnime1 : Anime := mkTv 1 0 "A"

/-- Second entity of the scrape-stage fixture. -/
def scrapeAnime2 : Anime := { mkTv 2 0 "B" with releaseDate := "2026-01-01" }

/-! ## Claim theorems -/

/-- C1: the specification requires duplicate resolution to remove, in one
pass, every duplicate-group member whose primary title mismatches the
authoritative title.  Evaluating the embedded `CheckDupes` on the two-group
fixture (authority: 100 maps to `"Show A"`, 200 maps to `"Show C"`) shows
that the code removes only the single entity at the first mismatching index
(`"Show B"`), leaving the second mismatch (`"Show D"`) in the output:
`checkTitle` returns right after its first removal and nothing re-runs it. -/
theorem checkDupes_two_groups_outcome :
    checkDupes titleMapTwoGroups dupesTwoGroups =
      (4, [mkTv 1 100 "Show A", mkTv 3 200 "Show C", mkTv 4 200 "Show D"]) := by
  decide

/-- C6: the cache upsert drops the supplied TMDB id.  Whether the row is
fresh (insert path: the column list omits `tmdb_id`, which defaults to 0) or
already present (update path: the SET list omits `tmdb_id`), the stored
`tmdb_id` stays 0 although the entry supplies 5.  Third conjunct: the update
path also overwrites the AniDB id with the supplied value unconditionally,
so an upsert carrying a zero AniDB id clobbers a previously stored 7. -/
theorem upsertEntry_ignores_supplied_tmdb :
    ((lookupRow (upsertEntry [] entryTmdb5) 1).map fun r => r.tmdbID) = some 0 ∧
    ((lookupRow (upsertEntry [rowAnidb7] entryTmdb5) 1).map fun r => r.tmdbID) = some 0 ∧
    ((lookupRow (upsertEntry [rowAnidb7] entryAnidb0) 1).map fun r => r.anidbID) = some 0 := by
  decide

/-- C8 counterexample: on a single duplicate group of two entities the
first result of `CheckDupes` is 2 — the number of duplicate-group members —
while the number of duplicate groups is 1. -/
theorem checkDupes_count_not_groups :
    (checkDupes titleMapTwoGroups [mkTv 1 100 "Show A", mkTv 2 100 "Show B"]).1 = 2 ∧
    numDupeGroups [mkTv 1 100 "Show A", mkTv 2 100 "Show B"] = 1 := by
  decide

/-- C2 counterexample: under `all` mode the scrape-stage policy applies no
type filter at all — a `"movie"` entity is selected although the claim says
`all` selects only entities matching the stage type (`"tv"` for the scrape
stage). -/
theorem filterAnimeToScrape_all_selects_nonTv :
    filterAnimeToScrape FetchMode.all 2026 [] [entityFoo] = [entityFoo] ∧
    entityFoo.type = "movie" := by
  decide

/-- C7 counterexample: the movie stage does not back-fill AniDB ids.  With
the cache holding AniDB id 7 for MAL id 1 and an input entity list carrying
0, the movie stage (under `default` mode, which selects the entity) resolves
a TMDB id through the exact-date short circuit and immediately upserts an
entry whose `anidb_id` is 0 — the update path writes that 0 over the cached
7. -/
theorem tmdb_stage_zeroes_cached_anidb :
    filterMoviesToFetch FetchMode.default [] [entityFoo] = [entityFoo] ∧
    ((lookupRow [rowAnidb7] 1).map fun r => r.anidbID) = some 7 ∧
    ((lookupRow (tmdbProcessEntity "t1" ([entityFoo], [rowAnidb7])
        entityFoo respSingle none).2 1).map fun r => r.anidbID) = some 0 := by
  decide

/-- C3 counterexample: on the specification fixture the first candidate
scores exactly 82 (40 title + 30 date + 5 popularity + 2 votes + 5 genre),
not at least 85 as claimed: popularity 50 contributes 50/10 = 5 points and
1000 votes contribute 1000/500 = 2 points, so the popularity/votes part is
7, not 10. -/
theorem calculateScore_example_below_85 :
    calculateScore entityFoo candidateFoo = 82 ∧
    ¬ (85 ≤ calculateScore entityFoo candidateFoo) := by
  have hFoo : calculateScore entityFoo candidateFoo = 82 := by
    simp only [calculateScore]
    rw [show titlePoints entityFoo candidateFoo = some 40 from by decide]
    rw [show datePoints entityFoo.releaseDate candidateFoo.releaseDate = 30 from by decide]
    norm_num [popularityPoints, votePoints, genrePoints, goMin, candidateFoo]
  refine ⟨hFoo, ?_⟩
  rw [hFoo]
  norm_num

/-- C3 amended: the first candidate scores exactly 82, which clears the
50-point acceptance threshold; the `"Bar"` candidate has no title overlap,
scores 0 and is discarded outright; and best-match selection returns the
first candidate with its score. -/
theorem scoring_example_selection :
    calculateScore entityFoo candidateFoo = 82 ∧
    50 ≤ calculateScore entityFoo candidateFoo ∧
    calculateScore entityFoo candidateBar = 0 ∧
    findBestMatch entityFoo [candidateFoo, candidateBar] =
      some (ScoredResult.mk 101 82) := by
  have hFoo : calculateScore entityFoo candidateFoo = 82 := by
    simp only [calculateScore]
    rw [show titlePoints entityFoo candidateFoo = some 40 from by decide]
    rw [show datePoints entityFoo.releaseDate candidateFoo.releaseDate = 30 from by decide]
    norm_num [popularityPoints, votePoints, genrePoints, goMin, candidateFoo]
  have hBar : calculateScore entityFoo candidateBar = 0 := by
    simp only [calculateScore]
    rw [show titlePoints entityFoo candidateBar = none from by decide]
  refine ⟨hFoo, by rw [hFoo]; norm_num, hBar, ?_⟩
  simp only [findBestMatch, findBestLoop, hFoo, hBar]
  norm_num [betterThanBest, candidateFoo, candidateBar]
  all_goals first
    | rfl
    | (intro h; exact absurd (by decide) h)

/-- C10 counterexample: with a candidate whose popularity is -10000 (and a
matching title, so the hard gate passes) the score is
40 + 30 - 1000 + 0 + 0 = -930, which is neither 0 nor inside [30, 95]; the
popularity term `min(popularity/10, 10)` is unbounded below. -/
theorem calculateScore_negative_popularity :
    ¬ (calculateScore entityFoo candidateNegPop = 0 ∨
       (30 ≤ calculateScore entityFoo candidateNegPop ∧
        calculateScore entityFoo candidateNegPop ≤ 95)) := by
  have h : calculateScore entityFoo candidateNegPop = -930 := by
    simp only [calculateScore]
    rw [show titlePoints entityFoo candidateNegPop = some 40 from by decide]
    rw [show datePoints entityFoo.releaseDate candidateNegPop.releaseDate = 30 from by decide]
    norm_num [popularityPoints, votePoints, genrePoints, goMin, candidateNegPop]
  rw [h]
  norm_num

/-- Any title-block outcome that passes the hard gate lies in [20, 40]. -/
theorem titlePoints_bounds (a : Anime) (r : TMDBResult) (t : ℚ)
    (h : titlePoints a r = some t) : 20 ≤ t ∧ t ≤ 40 := by
  unfold titlePoints at h
  dsimp only at h
  split_ifs at h <;> simp_all <;> norm_num [← h]

/-- The date block always contributes between 10 and 30 points. -/
theorem datePoints_bounds (d1 d2 : String) :
    10 ≤ datePoints d1 d2 ∧ datePoints d1 d2 ≤ 30 := by
  unfold datePoints
  split
  · norm_num
  · split
    · dsimp only
      split_ifs <;> norm_num
    · norm_num

/-- For a non-negative popularity the popularity block lies in [0, 10]. -/
theorem popularityPoints_bounds (p : ℚ) (hp : 0 ≤ p) :
    0 ≤ popularityPoints p ∧ popularityPoints p ≤ 10 := by
  unfold popularityPoints goMin
  split_ifs with h
  · constructor
    · positivity
    · exact h
  · norm_num

/-- For a non-negative vote count the vote block lies in [0, 10]. -/
theorem votePoints_bounds (v : Int) (hv : 0 ≤ v) :
    0 ≤ votePoints v ∧ votePoints v ≤ 10 := by
  have hv' : (0:ℚ) ≤ (v : ℚ) := by exact_mod_cast hv
  unfold votePoints goMin
  split_ifs with h
  · constructor
    · positivity
    · exact h
  · norm_num

/-- The genre bonus is 0 or 5. -/
theorem genrePoints_bounds (g : List Int) :
    0 ≤ genrePoints g ∧ genrePoints g ≤ 5 := by
  unfold genrePoints
  split_ifs <;> norm_num

/-- C10 amended: for every entity and every candidate with non-negative
popularity and vote count, the score is either exactly 0 (hard title gate)
or lies in [30, 95]: a candidate passing the gate earns at least 20 title
points and at least 10 date points, and the components are capped at
40 + 30 + 10 + 10 + 5. -/
theorem calculateScore_range (a : Anime) (r : TMDBResult)
    (hp : 0 ≤ r.popularity) (hv : 0 ≤ r.voteCount) :
    calculateScore a r = 0 ∨
      (30 ≤ calculateScore a r ∧ calculateScore a r ≤ 95) := by
  unfold calculateScore
  split
  · exact Or.inl rfl
  · rename_i t ht
    right
    obtain ⟨h1, h2⟩ := titlePoints_bounds a r t ht
    obtain ⟨h3, h4⟩ := datePoints_bounds a.releaseDate r.releaseDate
    obtain ⟨h5, h6⟩ := popularityPoints_bounds r.popularity hp
    obtain ⟨h7, h8⟩ := votePoints_bounds r.voteCount hv
    obtain ⟨h9, h10⟩ := genrePoints_bounds r.genreIds
    constructor <;> linarith

/-- C10 witness: the fixture candidate has non-negative popularity and
vote count, and its score falls in the stated range. -/
theorem calculateScore_range_witness :
    (0 ≤ candidateFoo.popularity ∧ 0 ≤ candidateFoo.voteCount) ∧
    (calculateScore entityFoo candidateFoo = 0 ∨
      (30 ≤ calculateScore entityFoo candidateFoo ∧
       calculateScore entityFoo candidateFoo ≤ 95)) :=
  ⟨⟨by decide, by decide⟩,
   calculateScore_range entityFoo candidateFoo (by decide) (by decide)⟩

/-- The legacy matching loop returns the identifier of the first result
satisfying the short-circuit predicate. -/
theorem oldMatchLoop_eq_find (tot : Int) (d : String) (l : List TMDBResult) :
    oldMatchLoop tot d l = (l.find? (shortCircuitP tot d)).map (fun r => r.id) := by
  induction l with
  | nil => rfl
  | cons r rest ih =>
      cases h : shortCircuitP tot d r <;>
        simp [oldMatchLoop, List.find?_cons, h, ih]

/-- C5: the exact-match short circuit runs before any confidence scoring.
If some result satisfies the legacy predicate (release date equal to the
entity date, or exactly one reported total result) then the first such
result is accepted for every fallback/scoring oracle — no score or
threshold can influence the outcome; the scoring path is entered exactly
when no result satisfies the predicate. -/
theorem old_logic_short_circuit (anime : Anime) (resp : TMDBAPIResponse) :
    (∀ r, resp.results.find? (shortCircuitP resp.totalResults anime.releaseDate) = some r →
        ∀ fb, resolveFromResponse anime resp fb = some r.id) ∧
    (resp.results.find? (shortCircuitP resp.totalResults anime.releaseDate) = none →
        ∀ fb, resolveFromResponse anime resp fb = scoringPath anime resp fb) := by
  constructor
  · intro r hr fb
    unfold resolveFromResponse oldMatchLogic
    rw [oldMatchLoop_eq_find, hr]
    rfl
  · intro hn fb
    unfold resolveFromResponse oldMatchLogic
    rw [oldMatchLoop_eq_find, hn]
    rfl

/-- C5 witness: in a two-result response whose second result carries the
exact release date, that result is accepted. -/
theorem old_logic_short_circuit_witness :
    respShort.results.find? (shortCircuitP respShort.totalResults entityFoo.releaseDate) =
      some candidateFoo ∧
    resolveFromResponse entityFoo respShort none = some candidateFoo.id :=
  ⟨rfl, (old_logic_short_circuit entityFoo respShort).1 candidateFoo rfl none⟩

/-- The multi-result loop of `findBestMatch`, with its inline
video/documentary/year skips, equals pre-filtering the candidate set and
then selecting the best positive-score candidate. -/
theorem findBestLoop_eq_selectBest (a : Anime) (rs : List TMDBResult) :
    ∀ best, findBestLoop a (getYear a.releaseDate) rs best =
      selectBest a (rs.filter (preFilterSpec a)) best := by
  induction rs with
  | nil => intro best; rfl
  | cons r rest ih =>
      intro best
      cases hv : r.video
      · cases hg : r.genreIds.contains 99
        · by_cases hy : getYear r.releaseDate = getYear a.releaseDate
          · simp only [findBestLoop, List.filter_cons, selectBest, preFilterSpec,
              hv, hg, hy, Bool.not_false, Bool.and_self, beq_self_eq_true,
              Bool.and_true, Bool.true_and, ne_eq, not_true_eq_false, if_false,
              Bool.false_eq_true, ite_false, ite_true, if_true]
            exact ih _
          · simp only [findBestLoop, List.filter_cons, selectBest, preFilterSpec,
              hv, hg, ne_eq, hy, not_false_eq_true, if_true, Bool.not_false,
              Bool.true_and, Bool.false_eq_true, ite_false]
            rw [if_neg (by simp [beq_eq_false_iff_ne, hy])]
            exact ih _
        · simp only [findBestLoop, List.filter_cons, preFilterSpec, hv, hg,
            Bool.not_false, Bool.not_true, Bool.true_and, Bool.false_and,
            Bool.and_false, Bool.false_eq_true, ite_false, if_false,
            Bool.true_eq_false, ite_true, if_true]
          exact ih _
      · simp only [findBestLoop, List.filter_cons, preFilterSpec, hv,
          Bool.not_true, Bool.false_and, Bool.false_eq_true, ite_false,
          ite_true, if_true]
        exact ih _

/-- C4: the scoring function is a deterministic function of
(entity, candidate) equal to the specified composition of components
(title tiers with a hard gate, graduated date component, capped
popularity/votes components, animation-genre bonus); a failed title gate
forces a total score of 0; and the video/documentary/year pre-filter is
applied exactly when the candidate set has more than one result — a single
result is scored without any pre-filter, while a multi-result set is
pre-filtered and then reduced to the best positive-score candidate. -/
theorem calculateScore_spec_and_prefilter (a : Anime) (r : TMDBResult)
    (rs : List TMDBResult) (h2 : 2 ≤ rs.length) :
    calculateScore a r = calculateScoreSpec a r ∧
    (titlePoints a r = none → calculateScore a r = 0) ∧
    findBestMatch a [r] =
      (if 0 < calculateScore a r then some (ScoredResult.mk r.id (calculateScore a r))
       else none) ∧
    findBestMatch a rs = selectBest a (rs.filter (preFilterSpec a)) none := by
  refine ⟨rfl, ?_, rfl, ?_⟩
  · intro h
    unfold calculateScore
    rw [h]
  · match rs, h2 with
    | x :: y :: ys, _ =>
        show findBestLoop a (getYear a.releaseDate) (x :: y :: ys) none = _
        exact findBestLoop_eq_selectBest a (x :: y :: ys) none

/-- C4 witness: the two-candidate fixture set has more than one result and
its best match equals the pre-filtered selection. -/
theorem calculateScore_spec_and_prefilter_witness :
    2 ≤ ([candidateFoo, candidateBar] : List TMDBResult).length ∧
    findBestMatch entityFoo [candidateFoo, candidateBar] =
      selectBest entityFoo
        (([candidateFoo, candidateBar] : List TMDBResult).filter
          (preFilterSpec entityFoo)) none :=
  ⟨by decide,
   (calculateScore_spec_and_prefilter entityFoo candidateFoo
      [candidateFoo, candidateBar] (by decide)).2.2.2⟩

/-- C2 amended: exact characterization of both fetch-mode filters.
`skip` selects nothing in both stages.  In the scrape stage `all` selects
every entity with no type filter, `missing` selects entities that are
neither cached nor already carrying an AniDB id, and `default` additionally
requires type `"tv"` and a release year at least the previous calendar year
(with no upper bound).  In the movie stage every mode first restricts to
type `"movie"`; `all` then selects all movies, and `missing` and `default`
coincide, selecting movies except those both present in the cache map and
already carrying a positive TMDB id. -/
theorem fetch_mode_characterization (year : Int) (cached : List Int)
    (cachedT : List (Int × Int)) (l : List Anime) :
    filterAnimeToScrape FetchMode.skip year cached l = [] ∧
    filterAnimeToScrape FetchMode.all year cached l = l ∧
    filterAnimeToScrape FetchMode.missing year cached l =
      l.filter (fun e => !(cached.contains e.malID) && !(decide (0 < e.anidbID))) ∧
    filterAnimeToScrape FetchMode.default year cached l =
      l.filter (fun e => !(cached.contains e.malID) && !(decide (0 < e.anidbID)) &&
        (e.type == "tv") && scrapeYearOK year e.releaseDate) ∧
    filterMoviesToFetch FetchMode.skip cachedT l = [] ∧
    filterMoviesToFetch FetchMode.all cachedT l = l.filter (fun e => e.type == "movie") ∧
    filterMoviesToFetch FetchMode.missing cachedT l =
      l.filter (fun e => (e.type == "movie") &&
        !((lookupPair cachedT e.malID).isSome && decide (0 < e.tmdbID))) ∧
    filterMoviesToFetch FetchMode.default cachedT l =
      filterMoviesToFetch FetchMode.missing cachedT l := by
  refine ⟨rfl, ?_, ?_, ?_, rfl, ?_, ?_, rfl⟩
  · simp [filterAnimeToScrape]
  · unfold filterAnimeToScrape
    rw [if_neg (by simp)]
    refine List.filter_congr ?_
    intro e _
    simp [Bool.not_or]
  · unfold filterAnimeToScrape
    rw [if_neg (by simp)]
    refine List.filter_congr ?_
    intro e _
    by_cases hc : cached.contains e.malID = true <;>
    by_cases ha : 0 < e.anidbID <;>
    by_cases htv : e.type = "tv" <;>
    simp [hc, ha, htv]
  · unfold filterMoviesToFetch
    rw [if_neg (by simp)]
    refine List.filter_congr ?_
    intro e _
    by_cases htm : e.type = "movie" <;> simp [htm]
  · unfold filterMoviesToFetch
    rw [if_neg (by simp)]
    refine List.filter_congr ?_
    intro e _
    by_cases htm : e.type = "movie" <;> simp [htm]

/-- The membership test computed by the `CheckDupes` counting loop equals
the specification notion of duplicate-group membership (with the code
requiring a non-zero, not merely positive, secondary id). -/
theorem isDupeMember_eq_spec (l : List Anime) (v : Anime) :
    isDupeMember l v = dupeMemberSpec l v := by
  by_cases htv : v.type = "tv"
  · have hfilt : l.filter (fun vv => v.anidbID == vv.anidbID && v.type == vv.type && v.type == "tv")
        = l.filter (fun vv => vv.anidbID == v.anidbID && vv.type == "tv") := by
      refine List.filter_congr ?_
      intro vv _
      by_cases h1 : v.anidbID = vv.anidbID
      · by_cases h2 : vv.type = v.type <;> simp [h1, h2, htv, eq_comm]
      · rw [beq_eq_false_iff_ne.mpr h1,
            beq_eq_false_iff_ne.mpr (fun he => h1 he.symm)]
        simp
    unfold isDupeMember dupeMemberSpec
    rw [hfilt]
    rw [show decide (1 < (l.filter (fun vv => vv.anidbID == v.anidbID && vv.type == "tv")).length)
        = decide (2 ≤ (l.filter (fun vv => vv.anidbID == v.anidbID && vv.type == "tv")).length)
      from decide_eq_decide.mpr (by omega)]
    simp [htv]
  · unfold isDupeMember dupeMemberSpec
    have h2 : (v.type == "tv") = false := by simp [htv]
    rw [show (fun vv => v.anidbID == vv.anidbID && v.type == vv.type && v.type == "tv")
        = (fun vv : Anime => false) from by
      funext vv; rw [h2, Bool.and_false]]
    simp [List.filter_false, h2]

/-- C8 amended: the first result of `CheckDupes` is the number of entities
that are members of duplicate groups — every member of every group is
counted, so one group of size k contributes k, not 1. -/
theorem checkDupes_count_members (tm : Int → String) (l : List Anime) :
    (checkDupes tm l).1 = ((l.filter (dupeMemberSpec l)).length : Int) := by
  have hspec : l.filter (isDupeMember l) = l.filter (dupeMemberSpec l) :=
    List.filter_congr (fun v _ => isDupeMember_eq_spec l v)
  unfold checkDupes
  dsimp only
  by_cases he : (dupeIndexes l).isEmpty
  · rw [if_pos he]
    have hnil : l.filter (isDupeMember l) = [] := by
      rw [List.filter_eq_nil_iff]
      intro v hv hd
      obtain ⟨i, hi⟩ := List.mem_iff_getElem?.mp hv
      have hmem : i ∈ dupeIndexes l := by
        unfold dupeIndexes
        rw [List.mem_filter]
        refine ⟨List.mem_range.mpr ?_, ?_⟩
        · obtain ⟨hlt, -⟩ := List.getElem?_eq_some.mp hi
          exact hlt
        · rw [hi]
          exact hd
      rw [List.isEmpty_iff] at he
      rw [he] at hmem
      exact absurd hmem (List.not_mem_nil i)
    rw [← hspec] at *
    rw [hnil]
    rfl
  · rw [if_neg he]
    rw [hspec]

/-- Upserting an entry keyed by a different MAL id leaves a lookup
unchanged. -/
theorem lookupRow_upsert_other (st : List CacheRow) (e : CacheEntry) (pid : Int)
    (h : e.malID ≠ pid) : lookupRow (upsertEntry st e) pid = lookupRow st pid := by
  unfold upsertEntry
  split_ifs with hany
  · unfold lookupRow
    rw [List.find?_map]
    have hpf : ((fun row : CacheRow => row.malID == pid) ∘
        (fun row => if row.malID == e.malID then updateRow row e else row))
        = (fun row : CacheRow => row.malID == pid) := by
      funext row
      by_cases hr : row.malID == e.malID <;> simp [Function.comp, hr, updateRow]
    rw [hpf]
    cases hf : List.find? (fun row : CacheRow => row.malID == pid) st
    · simp
    · rename_i r
      have hrm : r.malID = pid := by
        have := List.find?_some hf
        simpa [beq_iff_eq] using this
      have hne : (r.malID == e.malID) = false := by
        rw [beq_eq_false_iff_ne]
        rw [hrm]
        exact fun he => h he.symm
      simp [hne]
      intro he
      exact absurd (he.symm.trans hrm) h
  · unfold lookupRow
    rw [List.find?_cons_of_neg]
    simp [insertRow, beq_eq_false_iff_ne, h]

/-- Upserting over an existing row runs the update path: exactly the five
SET columns change and everything else — the `tmdb_id` column included —
keeps its prior value. -/
theorem lookupRow_upsert_exist (st : List CacheRow) (e : CacheEntry) (row : CacheRow)
    (h : lookupRow st e.malID = some row) :
    lookupRow (upsertEntry st e) e.malID = some (updateRow row e) := by
  unfold upsertEntry
  split_ifs with hany
  · unfold lookupRow
    rw [List.find?_map]
    have hpf : ((fun r : CacheRow => r.malID == e.malID) ∘
        (fun r => if r.malID == e.malID then updateRow r e else r))
        = (fun r : CacheRow => r.malID == e.malID) := by
      funext r
      by_cases hr : r.malID == e.malID <;> simp [Function.comp, hr, updateRow]
    rw [hpf]
    unfold lookupRow at h
    rw [h]
    have hb := List.find?_some h
    exact congrArg some (if_pos hb)
  · exfalso
    have hmem := List.mem_of_find?_eq_some h
    have hbeq := List.find?_some h
    rw [Bool.not_eq_true] at hany
    exact (List.any_eq_false.mp hany row hmem) hbeq

/-- The entity found through `malIDToIndex` carries the looked-up MAL id. -/
theorem lastIdxOf_getElem : ∀ (a : List Anime) (m : Int) (i : Nat),
    lastIdxOf a m = some i → ∀ x, a[i]? = some x → x.malID = m := by
  intro a
  induction a with
  | nil => intro m i h; simp [lastIdxOf] at h
  | cons y ys ih =>
      intro m i h x hx
      unfold lastIdxOf at h
      cases hl : lastIdxOf ys m with
      | some j =>
          rw [hl] at h
          simp only [Option.some.injEq] at h
          subst h
          rw [List.getElem?_cons_succ] at hx
          exact ih m j hl x hx
      | none =>
          rw [hl] at h
          split_ifs at h with hy
          · simp only [Option.some.injEq] at h
            subst h
            rw [List.getElem?_cons_zero] at hx
            cases hx
            exact beq_iff_eq.mp hy

/-- A scrape result for a different MAL id touches neither the entities nor
the cache row of `pid`. -/
theorem applyScrape_preserve (now : String) (st : List Anime × List CacheRow)
    (p : Int × Int) (pid v : Int) (r0 : Option CacheRow) (hne : p.1 ≠ pid)
    (ha : ∀ x ∈ st.1, x.malID = pid → x.anidbID = v)
    (hr : lookupRow st.2 pid = r0) :
    (∀ x ∈ (applyScrapeResult now st p).1, x.malID = pid → x.anidbID = v) ∧
    lookupRow (applyScrapeResult now st p).2 pid = r0 := by
  unfold applyScrapeResult
  cases h1 : lastIdxOf st.1 p.1 with
  | none =>
      simp only [h1]
      exact ⟨ha, hr⟩
  | some i =>
      simp only [h1]
      cases h2 : st.1[i]? with
      | none =>
          simp only [h2]
          exact ⟨ha, hr⟩
      | some x =>
          simp only [h2]
          have hxm : x.malID = p.1 := lastIdxOf_getElem st.1 p.1 i h1 x h2
          constructor
          · intro y hy hym
            rcases List.mem_or_eq_of_mem_set hy with hmem | heq
            · exact ha y hmem hym
            · exfalso
              rw [heq] at hym
              exact hne (hxm ▸ hym)
          · rw [lookupRow_upsert_other _ _ _ hne]
            exact hr

/-- The whole concurrent-scrape phase preserves the entities and the cache
row of a MAL id that is never scraped. -/
theorem scrapeFold_preserve (now : String) (pid v : Int) :
    ∀ (scraped : List (Int × Int)) (st : List Anime × List CacheRow) (r0 : Option CacheRow),
      (∀ p ∈ scraped, p.1 ≠ pid) →
      (∀ x ∈ st.1, x.malID = pid → x.anidbID = v) →
      lookupRow st.2 pid = r0 →
      (∀ x ∈ (scraped.foldl (applyScrapeResult now) st).1, x.malID = pid → x.anidbID = v) ∧
      lookupRow (scraped.foldl (applyScrapeResult now) st).2 pid = r0 := by
  intro scraped
  induction scraped with
  | nil => intro st r0 _ ha hr; exact ⟨ha, hr⟩
  | cons p ps ih =>
      intro st r0 hne ha hr
      rw [List.foldl_cons]
      obtain ⟨ha', hr'⟩ := applyScrape_preserve now st p pid v r0
        (hne p (List.mem_cons_self p ps)) ha hr
      exact ih (applyScrapeResult now st p) r0
        (fun q hq => hne q (List.mem_cons_of_mem p hq)) ha' hr'

/-- The end-of-stage cache sweep keeps the AniDB id of `pid` at the value
carried by the entity list and never touches the TMDB column. -/
theorem updateCache_preserve (now : String) (pid v t : Int) :
    ∀ (aL : List Anime) (st : List CacheRow),
      (∀ x ∈ aL, x.malID = pid → x.anidbID = v) →
      (∃ r, lookupRow st pid = some r ∧ r.anidbID = v ∧ r.tmdbID = t) →
      ∃ r, lookupRow (updateCacheDatabase now st aL) pid = some r ∧
        r.anidbID = v ∧ r.tmdbID = t := by
  intro aL
  induction aL with
  | nil => intro st _ hP; exact hP
  | cons x xs ih =>
      intro st hmem hP
      unfold updateCacheDatabase
      rw [List.foldl_cons]
      refine ih (upsertEntry st (scrapeSweepEntry now x))
        (fun y hy => hmem y (List.mem_cons_of_mem x hy)) ?_
      obtain ⟨r, hr, hra, hrt⟩ := hP
      by_cases hx : x.malID = pid
      · have hm : (scrapeSweepEntry now x).malID = pid := hx
        have hr' : lookupRow st (scrapeSweepEntry now x).malID = some r := by
          rw [hm]; exact hr
        refine ⟨updateRow r (scrapeSweepEntry now x), ?_, ?_, ?_⟩
        · rw [← hm]
          exact lookupRow_upsert_exist st (scrapeSweepEntry now x) r hr'
        · show (scrapeSweepEntry now x).anidbID = v
          exact hmem x (List.mem_cons_self x xs) hx
        · exact hrt
      · refine ⟨r, ?_, hra, hrt⟩
        rw [lookupRow_upsert_other st (scrapeSweepEntry now x) pid hx]
        exact hr

/-- `setFirstAnidb` does not change the MAL ids of the list. -/
theorem setFirst_malID_map (m v : Int) : ∀ (a : List Anime),
    (setFirstAnidb a m v).map Anime.malID = a.map Anime.malID := by
  intro a
  induction a with
  | nil => rfl
  | cons y ys ih =>
      unfold setFirstAnidb
      by_cases hy : y.malID == m
      · simp [hy]
      · simp only [Bool.not_eq_true] at hy
        simp [hy, ih]

/-- Back-filling a different MAL id does not disturb the entities of `pid`. -/
theorem setFirst_other (k v pid w : Int) (hk : k ≠ pid) : ∀ (a : List Anime),
    (∀ x ∈ a, x.malID = pid → x.anidbID = w) →
    ∀ x ∈ setFirstAnidb a k v, x.malID = pid → x.anidbID = w := by
  intro a
  induction a with
  | nil => intro _ x hx; simp [setFirstAnidb] at hx
  | cons y ys ih =>
      intro ha x hx hxm
      unfold setFirstAnidb at hx
      by_cases hy : (y.malID == k) = true
      · rw [if_pos hy] at hx
        rcases List.mem_cons.mp hx with heq | hmem
        · exfalso
          rw [heq] at hxm
          exact hk ((beq_iff_eq.mp hy) ▸ hxm)
        · exact ha x (List.mem_cons_of_mem y hmem) hxm
      · rw [if_neg hy] at hx
        rcases List.mem_cons.mp hx with heq | hmem
        · rw [heq]
          exact ha y (List.mem_cons_self y ys) (heq ▸ hxm)
        · exact ih (fun z hz => ha z (List.mem_cons_of_mem y hz)) x hmem hxm

/-- When MAL ids are unique, back-filling `pid` makes its (unique) entity
carry the cached value. -/
theorem setFirst_self (pid v : Int) : ∀ (a : List Anime),
    ((a.map Anime.malID).Nodup) →
    ∀ x ∈ setFirstAnidb a pid v, x.malID = pid → x.anidbID = v := by
  intro a
  induction a with
  | nil => intro _ x hx; simp [setFirstAnidb] at hx
  | cons y ys ih =>
      intro hnd x hx hxm
      unfold setFirstAnidb at hx
      by_cases hy : (y.malID == pid) = true
      · rw [if_pos hy] at hx
        rcases List.mem_cons.mp hx with heq | hmem
        · rw [heq]
        · exfalso
          have hpid : pid ∈ ys.map Anime.malID :=
            List.mem_map.mpr ⟨x, hmem, hxm⟩
          rw [List.map_cons, List.nodup_cons] at hnd
          exact hnd.1 ((beq_iff_eq.mp hy) ▸ hpid)
      · rw [if_neg hy] at hx
        rcases List.mem_cons.mp hx with heq | hmem
        · exfalso
          rw [heq] at hxm
          exact hy (beq_iff_eq.mpr hxm)
        · rw [List.map_cons, List.nodup_cons] at hnd
          exact ih hnd.2 x hmem hxm

/-- Back-fill over a map that never mentions `pid` preserves its entities. -/
theorem backfill_other (pid w : Int) : ∀ (m : List (Int × Int)) (a : List Anime),
    (∀ p ∈ m, p.1 ≠ pid) →
    (∀ x ∈ a, x.malID = pid → x.anidbID = w) →
    ∀ x ∈ backfillAniDB a m, x.malID = pid → x.anidbID = w := by
  intro m
  induction m with
  | nil => intro a _ ha; exact ha
  | cons p ps ih =>
      intro a hm ha
      unfold backfillAniDB
      rw [List.foldl_cons]
      show ∀ x ∈ backfillAniDB (if 0 < p.2 then setFirstAnidb a p.1 p.2 else a) ps, _
      refine ih _ (fun q hq => hm q (List.mem_cons_of_mem p hq)) ?_
      split_ifs with hp
      · exact setFirst_other p.1 p.2 pid w (hm p (List.mem_cons_self p ps)) a ha
      · exact ha

/-- After the back-fill of a cached map with unique keys containing
`(pid, v)` with `v > 0`, every entity with MAL id `pid` carries `v`
(MAL ids unique in the entity list). -/
theorem backfill_self (pid v : Int) : ∀ (m : List (Int × Int)) (a : List Anime),
    ((m.map Prod.fst).Nodup) → (pid, v) ∈ m → 0 < v →
    ((a.map Anime.malID).Nodup) →
    ∀ x ∈ backfillAniDB a m, x.malID = pid → x.anidbID = v := by
  intro m
  induction m with
  | nil => intro a _ hmem; simp at hmem
  | cons p ps ih =>
      intro a hkeys hmem hv hand
      unfold backfillAniDB
      rw [List.foldl_cons]
      show ∀ x ∈ backfillAniDB (if 0 < p.2 then setFirstAnidb a p.1 p.2 else a) ps, _
      rcases List.mem_cons.mp hmem with heq | hmem'
      · subst heq
        rw [if_pos hv]
        have hkey : ∀ q ∈ ps, q.1 ≠ pid := by
          intro q hq hqe
          rw [List.map_cons, List.nodup_cons] at hkeys
          exact hkeys.1 (List.mem_map.mpr ⟨q, hq, hqe⟩)
        exact backfill_other pid v ps _ hkey (setFirst_self pid v a hand)
      · have hp1 : p.1 ≠ pid := by
          intro hpe
          rw [List.map_cons, List.nodup_cons] at hkeys
          refine hkeys.1 ?_
          rw [hpe]
          exact List.mem_map.mpr ⟨(pid, v), hmem', rfl⟩
        have hand' : (((if 0 < p.2 then setFirstAnidb a p.1 p.2 else a)).map Anime.malID).Nodup := by
          split_ifs with hp
          · rw [setFirst_malID_map]; exact hand
          · exact hand
        rw [List.map_cons, List.nodup_cons] at hkeys
        exact ih _ hkeys.2 hmem' hv hand'

/-- Under any non-`all` mode, an entity selected for scraping is not in the
cached key set. -/
theorem scrape_mem_not_contains (mode : FetchMode) (y : Int) (cached : List Int)
    (a : List Anime) (e : Anime) (hm : mode ≠ FetchMode.all)
    (he : e ∈ filterAnimeToScrape mode y cached a) :
    cached.contains e.malID = false := by
  cases mode
  case all => exact absurd rfl hm
  case skip => simp [filterAnimeToScrape] at he
  case missing =>
      unfold filterAnimeToScrape at he
      rw [if_neg (by simp)] at he
      have hp := (List.mem_filter.mp he).2
      cases hc : cached.contains e.malID
      · rfl
      · rw [hc] at hp
        simp at hp
  case default =>
      unfold filterAnimeToScrape at he
      rw [if_neg (by simp)] at he
      have hp := (List.mem_filter.mp he).2
      cases hc : cached.contains e.malID
      · rfl
      · rw [hc] at hp
        simp at hp

/-- C7 amended.  First conjunct: no upsert ever changes the `tmdb_id` of an
existing row, so a cached non-zero TMDB id is never overwritten by any
stage.  Remaining conjuncts: a scrape-stage run under a non-`all` mode —
with unique MAL ids in the entity list and in the store, and with scrape
results confined to the policy-selected subset — leaves both identifier
fields of a cached row with a positive AniDB id exactly unchanged: the id
is back-filled into the entity set, the entity is excluded from scraping,
and the final sweep rewrites the same value.  (The movie stage does not
enjoy the AniDB half of this property; see the counterexample.) -/
theorem cache_monotonicity_amended (mode : FetchMode) (currentYear : Int) (now : String)
    (scraped : List (Int × Int)) (animeList : List Anime) (store : List CacheRow)
    (pid : Int) (row : CacheRow)
    (hmode : mode ≠ FetchMode.all)
    (huniq : (animeList.map Anime.malID).Nodup)
    (hstore : (store.map CacheRow.malID).Nodup)
    (hdom : ∀ p ∈ scraped, p.1 ∈ (filterAnimeToScrape mode currentYear
        (cachedKeys (getAniDBIDs store))
        (backfillAniDB animeList (getAniDBIDs store))).map Anime.malID)
    (hrow : lookupRow store pid = some row) (hpos : 0 < row.anidbID) :
    (∀ (st : List CacheRow) (e : CacheEntry) (q : Int) (r : CacheRow),
        lookupRow st q = some r →
        ((lookupRow (upsertEntry st e) q).map CacheRow.tmdbID) = some r.tmdbID) ∧
    ((lookupRow (scrapeStage mode currentYear now scraped animeList store).2 pid).map
        CacheRow.anidbID) = some row.anidbID ∧
    ((lookupRow (scrapeStage mode currentYear now scraped animeList store).2 pid).map
        CacheRow.tmdbID) = some row.tmdbID := by
  constructor
  · intro st e q r h
    by_cases hq : e.malID = q
    · subst hq
      rw [lookupRow_upsert_exist st e r h]
      rfl
    · rw [lookupRow_upsert_other st e q hq, h]
      rfl
  · have hrow' : store.find? (fun r => r.malID == pid) = some row := hrow
    have hmemrow := List.mem_of_find?_eq_some hrow'
    have hmal : row.malID = pid := by
      have hb := List.find?_some hrow'
      simpa [beq_iff_eq] using hb
    have hpm : (pid, row.anidbID) ∈ getAniDBIDs store := by
      unfold getAniDBIDs
      refine List.mem_map.mpr ⟨row, ?_, by rw [hmal]⟩
      exact List.mem_filter.mpr ⟨hmemrow, by simpa using hpos⟩
    have hkeys : ((getAniDBIDs store).map Prod.fst).Nodup := by
      have hksub : ((getAniDBIDs store).map Prod.fst).Sublist (store.map CacheRow.malID) := by
        unfold getAniDBIDs
        rw [List.map_map]
        exact (List.filter_sublist store).map _
      exact List.Nodup.sublist hksub hstore
    have hcached : pid ∈ cachedKeys (getAniDBIDs store) := by
      unfold cachedKeys
      refine List.mem_map.mpr ⟨(pid, row.anidbID), ?_, rfl⟩
      exact List.mem_filter.mpr ⟨hpm, by simpa using hpos⟩
    have ha1 : ∀ x ∈ backfillAniDB animeList (getAniDBIDs store),
        x.malID = pid → x.anidbID = row.anidbID :=
      backfill_self pid row.anidbID (getAniDBIDs store) animeList hkeys hpm hpos huniq
    have hne : ∀ p ∈ scraped, p.1 ≠ pid := by
      intro p hp hpe
      obtain ⟨e, he, hem⟩ := List.mem_map.mp (hdom p hp)
      have hcont := scrape_mem_not_contains mode currentYear _ _ e hmode he
      rw [hem, hpe] at hcont
      have htrue : (cachedKeys (getAniDBIDs store)).contains pid = true :=
        List.elem_iff.mpr hcached
      rw [htrue] at hcont
      cases hcont
    unfold scrapeStage
    dsimp only
    by_cases hemp : (filterAnimeToScrape mode currentYear (cachedKeys (getAniDBIDs store))
        (backfillAniDB animeList (getAniDBIDs store))).isEmpty
    · rw [if_pos hemp, hrow]
      exact ⟨rfl, rfl⟩
    · rw [if_neg hemp]
      obtain ⟨hf1, hf2⟩ := scrapeFold_preserve now pid row.anidbID scraped
        (backfillAniDB animeList (getAniDBIDs store), store) (some row) hne ha1 hrow
      obtain ⟨r, hr, hra, hrt⟩ := updateCache_preserve now pid row.anidbID row.tmdbID
        (scraped.foldl (applyScrapeResult now)
          (backfillAniDB animeList (getAniDBIDs store), store)).1
        (scraped.foldl (applyScrapeResult now)
          (backfillAniDB animeList (getAniDBIDs store), store)).2
        hf1 ⟨row, hf2, rfl, rfl⟩
      rw [hr]
      constructor
      · simp [hra]
      · simp [hrt]

/-- C7 witness: a concrete scrape-stage run (mode `missing`, one cached
entity with AniDB id 7, one freshly scraped entity) preserves both cached
identifier fields of MAL id 1. -/
theorem cache_monotonicity_amended_witness :
    (∀ p ∈ ([((2:Int), (55:Int))] : List (Int × Int)),
        p.1 ∈ (filterAnimeToScrape FetchMode.missing 2026
          (cachedKeys (getAniDBIDs [rowAnidb7]))
          (backfillAniDB [scrapeAnime1, scrapeAnime2] (getAniDBIDs [rowAnidb7]))).map
            Anime.malID) ∧
    lookupRow [rowAnidb7] 1 = some rowAnidb7 ∧
    ((lookupRow (scrapeStage FetchMode.missing 2026 "t2" [(2, 55)]
        [scrapeAnime1, scrapeAnime2] [rowAnidb7]).2 1).map CacheRow.anidbID) =
      some rowAnidb7.anidbID ∧
    ((lookupRow (scrapeStage FetchMode.missing 2026 "t2" [(2, 55)]
        [scrapeAnime1, scrapeAnime2] [rowAnidb7]).2 1).map CacheRow.tmdbID) =
      some rowAnidb7.tmdbID :=
  ⟨by decide, by decide,
   (cache_monotonicity_amended FetchMode.missing 2026 "t2" [(2, 55)]
      [scrapeAnime1, scrapeAnime2] [rowAnidb7] 1 rowAnidb7
      (by decide) (by decide) (by decide) (by decide) (by decide) (by decide)).2.1,
   (cache_monotonicity_amended FetchMode.missing 2026 "t2" [(2, 55)]
      [scrapeAnime1, scrapeAnime2] [rowAnidb7] 1 rowAnidb7
      (by decide) (by decide) (by decide) (by decide) (by decide) (by decide)).2.2⟩

/-- C9: serializing an entity list to the terminal JSON format and reading
it back reproduces every entity in order, with every field equal except the
two `json:"-"` fields (synonym set and Japanese title), which are absent
from the output and come back empty. -/
theorem anime_roundtrip (l : List Anime) :
    getAnimeList (storeAnimeList l) = l.map scrubAnime := by
  unfold getAnimeList storeAnimeList
  rw [List.map_map]
  refine List.map_congr_left ?_
  intro a _
  unfold Function.comp marshalAnime unmarshalAnime scrubAnime
  by_cases he : a.englishTitle = "" <;>
  by_cases h1 : a.anidbID = 0 <;>
  by_cases h2 : a.tvdbID = 0 <;>
  by_cases h3 : a.tmdbID = 0 <;>
  simp [he, h1, h2, h3]

end Shinkrodb
